import Mathlib

/-!
# PySyft-TensorFlow hook engine: formal model

A shallow embedding of the PySyft-TensorFlow interception engine
(`syft_tensorflow/hook/hook.py`) and of the tensor send/get protocol it
installs.  Python's dynamic state (attribute tables of types and modules,
process-wide globals, the remote-object stores of workers) is made explicit:
attribute tables are association lists from names to implementation tokens,
and each stateful operation is a function from the old state to the new one.
Numeric payloads are modelled as lists of rationals; the values exercised by
the test suite (2.0, 3.0, 5.0) are exactly representable, so rational
arithmetic is faithful to the framework's numeric kernels on them.
-/

namespace PySyftTF

/-! ## Tensor / Pointer data model

`syft_tensorflow/tensor.py` is not part of the sources at hand (only the hook
that installs it and the tests that exercise it are), so the wrapper-tensor
payload and the send/get protocol are modelled from the spec, §3 and §4.2. -/

/-- A pointer child: `{location, id_at_location}` referencing a remote object.
Modelled from the spec: the `Pointer` record of §3 (the `owner` component
plays no role in the claims below and is carried by the enclosing tensor). -/
structure Pointer where
  location : Nat
  id_at_location : Nat
  deriving DecidableEq, Repr

/-- A wrapper tensor's child: raw local payload or a pointer.
Modelled from the spec: §3 "Wrapper: {child: TensorPayload | Pointer}". -/
inductive Child where
  | localData (payload : List Rat)
  | pointer (p : Pointer)
  deriving DecidableEq, Repr

/-- A hooked tensor: child slot, `is_wrapper` flag and (optional, lazily
generated) syft id.  Modelled from the spec, §3 "Tensor Identity". -/
structure TFTensor where
  child : Child
  is_wrapper : Bool
  id : Option Nat
  deriving DecidableEq, Repr

/-- The remote-object stores of all workers, flattened: entries are
`(worker id, object id at that worker, payload)`, most recent first, plus a
fresh-id counter for registrations.  Modelled from the spec: §6 Worker
capability `register(object) -> id` / `retrieve(id) -> payload`. -/
structure Env where
  store : List (Nat × Nat × List Rat)
  nextId : Nat
  deriving DecidableEq, Repr

/-- Retrieve the payload registered at worker `w` under object id `i`. -/
def Env.lookup (e : Env) (w : Nat) (i : Nat) : Option (List Rat) :=
  (e.store.find? (fun t => t.1 == w && t.2.1 == i)).map (·.2.2)

/-- A freshly constructed local tensor: local child, `is_wrapper = False`,
no id materialized yet. -/
def TFTensor.constant (d : List Rat) : TFTensor :=
  ⟨Child.localData d, false, none⟩

/-- Modelled from the spec: §4.2 `send(destination)` — move the local payload
to the destination worker's store, replace `child` by a Pointer to the remote
copy, return the same (updated) object. -/
def TFTensor.send (t : TFTensor) (w : Nat) (e : Env) : TFTensor × Env :=
  match t.child with
  | Child.localData d =>
      ({ t with child := Child.pointer ⟨w, e.nextId⟩, is_wrapper := true },
       ⟨(w, e.nextId, d) :: e.store, e.nextId + 1⟩)
  | Child.pointer _ => (t, e)

/-- Modelled from the spec: §4.2 `get()` — request the remote payload back,
replace the Pointer child with the retrieved local payload, return the same
(updated) object. -/
def TFTensor.get (t : TFTensor) (e : Env) : TFTensor :=
  match t.child with
  | Child.pointer p =>
      match e.lookup p.location p.id_at_location with
      | some d => { t with child := Child.localData d, is_wrapper := false }
      | none => t
  | Child.localData _ => t

/-- Elementwise addition of payloads: the native numeric kernel, reused
verbatim (spec §1: host framework kernels are assumed correct). -/
def localAdd (a b : List Rat) : List Rat := List.zipWith (· + ·) a b

/-- Modelled from the spec: §4.2 pointer dispatch for the binary `+` — when
both children are Pointers to the same location, the command is executed at
that worker on the stored payloads, the result is registered remotely under a
fresh id, and a new Pointer to it is returned; mixed or mismatched operands
are not defined (`none`). -/
def TFTensor.addPtr (x y : TFTensor) (e : Env) : Option (TFTensor × Env) :=
  match x.child, y.child with
  | Child.pointer p, Child.pointer q =>
      if p.location = q.location then
        match e.lookup p.location p.id_at_location,
              e.lookup q.location q.id_at_location with
        | some a, some b =>
            some ({ x with child := Child.pointer ⟨p.location, e.nextId⟩,
                           is_wrapper := true },
                  ⟨(p.location, e.nextId, localAdd a b) :: e.store, e.nextId + 1⟩)
        | _, _ => none
      else none
  | _, _ => none

/-! ## Attribute tables and `_add_methods_from_native_tensor`

Python attribute tables are association lists from names to implementation
tokens (`Nat`); `setattr` conses, `getattr`/`hasattr` take the most recent
binding.  The following is the method-copy loop of
`TensorFlowHook._add_methods_from_native_tensor` (hook.py, lines 275-317). -/

/-- An attribute table: most recent `setattr` first. -/
abbrev AttrMap := List (String × Nat)

/-- Python getattr on an attribute table. -/
def lookupA (T : AttrMap) (k : String) : Option Nat :=
  (T.find? (·.1 == k)).map (·.2)

/-- Python setattr on an attribute table. -/
def setA (T : AttrMap) (k : String) (v : Nat) : AttrMap := (k, v) :: T

/-- The fixed exclusion list of `_add_methods_from_native_tensor`
(hook.py, lines 284-308); `__eq__` is commented out in the source and hence
not excluded. -/
def exclude : List String :=
  ["__class__", "__delattr__", "__dir__", "__doc__", "__dict__",
   "__format__", "__getattribute__", "__hash__", "__init__",
   "__init_subclass__", "__weakref__", "__ne__", "__new__", "__reduce__",
   "__reduce_ex__", "__setattr__", "__sizeof__", "__subclasshook__",
   "__gt__", "__ge__", "__lt__", "__le__"]

/-- One iteration of the copy loop (hook.py, lines 311-317): skip excluded
names; otherwise alias the existing native binding as `native_<attr>` when
present, then install the syft implementation `impl attr` under `attr`. -/
def addMethodStep (impl : String → Nat) (T : AttrMap) (attr : String) :
    AttrMap :=
  if attr ∈ exclude then T
  else
    let T1 := match lookupA T attr with
      | some v => setA T ("native_" ++ attr) v
      | none => T
    setA T1 attr (impl attr)

/-- The body of `_add_methods_from_native_tensor`: fold the copy loop over
`dir(syft_type)` (the list `syftAttrs`), where `impl` is
`getattr(TensorFlowTensor, ·)`. -/
def add_methods_from_native_tensor (syftAttrs : List String)
    (impl : String → Nat) (T : AttrMap) : AttrMap :=
  syftAttrs.foldl (addMethodStep impl) T

/-! ## `_hook_tensorflow_module`: the module overloader filter

hook.py, lines 100-127: walk `dir(tensorflow_module)` and overload every
name that survives a cascade of skip checks.  Note that the source skips any
name *containing* a double underscore (`"__" in func`) and any name
*containing* the substring `native_` (`"native_" in func`), not merely dunder
names and names with an existing alias. -/

/-- The per-name decision of the overloading loop (hook.py, lines 104-127):
`moduleDir` is the contents of `dir(tensorflow_module)` against which the
`native_<func>` alias check runs.  `func.front` models `func[0]` (the source
would raise on an empty name; `dir` never yields one). -/
def shouldOverload (excl moduleDir : List String) (func : String) : Bool :=
  if func ∈ excl then false
  else if "__".data <:+: func.data then false
  else if func.front.isUpper then false
  else if func.front == '_' then false
  else if ("native_".data <:+: func.data) ∨ ("native_" ++ func) ∈ moduleDir
      then false
  else true

/-- The effect of `_hook_tensorflow_module` on one framework namespace: the names the loop
passes to `_perform_function_overloading`, in order. -/
def hook_tensorflow_module (excl moduleDir : List String) : List String :=
  moduleDir.filter (shouldOverload excl moduleDir)

/-- The claim's own filter, worded from the spec (§4.3): skip names in the
exclusion set, dunder names (double underscore at both ends), names beginning
with an uppercase letter or an underscore, and names already overloaded
(a `native_<name>` alias already present). -/
def shouldOverloadSpec (excl moduleDir : List String) (func : String) :
    Bool :=
  if func ∈ excl then false
  else if ("__".data <+: func.data) ∧ ("__".data <:+ func.data) then false
  else if func.front.isUpper then false
  else if func.front == '_' then false
  else if ("native_" ++ func) ∈ moduleDir then false
  else true

/-! ## `_hook_properties`: lazily materialized identity accessors

hook.py, lines 187-254.  A tensor's instance dictionary is modelled by
optional fields `_syft_id`, `_owner`, `_is_wrapper`; each getter
returns the read value together with the (possibly updated) instance, since a
first read materializes the default. -/

/-- The instance-attribute state a hooked tensor carries for the injected
properties. -/
structure PropsTensor where
  syft_id_attr : Option Nat
  owner_attr : Option Nat
  is_wrapper_attr : Option Bool
  deriving DecidableEq, Repr

/-- Modelled from the spec: the process-wide id provider (`syft.ID_PROVIDER`,
external syft core; spec §3: ids come from "a process-wide
monotonic/pseudo-random provider").  `pop` yields the next token. -/
structure IdProvider where
  next : Nat
  deriving DecidableEq, Repr

/-- Pop a fresh id from the provider. -/
def IdProvider.pop (p : IdProvider) : Nat × IdProvider :=
  (p.next, ⟨p.next + 1⟩)

/-- The `id` getter (hook.py, lines 210-214): generate `_syft_id` from the
provider on first access, return the stored value afterwards. -/
def idGet (t : PropsTensor) (p : IdProvider) :
    Nat × PropsTensor × IdProvider :=
  match t.syft_id_attr with
  | none =>
      let (i, p') := p.pop
      (i, { t with syft_id_attr := some i }, p')
  | some i => (i, t, p)

/-- The `id` setter (hook.py, lines 216-219). -/
def idSet (t : PropsTensor) (n : Nat) : PropsTensor :=
  { t with syft_id_attr := some n }

/-- The `owner` getter (hook.py, lines 223-227): default to the hook's local
worker on first access. -/
def ownerGet (localWorker : Nat) (t : PropsTensor) : Nat × PropsTensor :=
  match t.owner_attr with
  | none => (localWorker, { t with owner_attr := some localWorker })
  | some w => (w, t)

/-- The `owner` setter (hook.py, lines 229-232). -/
def ownerSet (t : PropsTensor) (w : Nat) : PropsTensor :=
  { t with owner_attr := some w }

/-- The table-level effect of `_hook_properties` (hook.py, lines 187-254):
install the five property objects and `dim`, and alias the native `shape`
as `native_shape`.  `propImpl` names the installed property objects. -/
def hook_properties (propImpl : String → Nat) (T : AttrMap) : AttrMap :=
  let T1 := setA T "location" (propImpl "location")
  let T2 := setA T1 "id_at_location" (propImpl "id_at_location")
  let T3 := setA T2 "id" (propImpl "id")
  let T4 := setA T3 "owner" (propImpl "owner")
  let T5 := setA T4 "is_wrapper" (propImpl "is_wrapper")
  let T6 := match lookupA T5 "shape" with
    | some v => setA T5 "native_shape" v
    | none => T5
  setA T6 "dim" (propImpl "dim")

/-! ## `_add_registration_to___init__`

hook.py, lines 129-157: alias the native constructor once, then replace
`__init__` by `new___init__`. -/

/-- The table-level effect of `_add_registration_to___init__` (hook.py,
lines 144-157): preserve `__init__` as `native___init__` unless the alias is
already present, then install the replacement constructor. -/
def add_registration_to_init (T : AttrMap) (newInitImpl : Nat) : AttrMap :=
  let T1 :=
    if lookupA T "native___init__" = none then
      match lookupA T "__init__" with
      | some v => setA T "native___init__" v
      | none => T
    else T
  setA T1 "__init__" newInitImpl

/-- The tensor object produced by construction through the replaced
constructor. -/
structure InitializedTensor where
  payload : List Rat
  id : Option Nat
  owner : Nat
  is_wrapper : Bool
  deriving DecidableEq, Repr

/-- Modelled from the spec: `initialize_tensor` of the external syft core
(spec §4.1): perform identity initialization — take the given id (a fresh one
is generated lazily on first property access otherwise), resolve the owner to
the hook's local worker, mark `is_wrapper = False` for freshly constructed
raw data — then delegate to the preserved native constructor on the remaining
positional and keyword arguments. -/
def initialize_tensor (hookLocalWorker : Nat) (id : Option Nat)
    (nativeCtor : List Rat → List Rat) (args : List Rat) :
    InitializedTensor :=
  ⟨nativeCtor args, id, hookLocalWorker, false⟩

/-- The replacement constructor `new___init__` (hook.py, lines 147-155):
accept optional `owner`, `id`
and `register` keyword parameters and run `initialize_tensor` with the
remaining positional and keyword arguments (the source forwards `id`,
`args` and `kwargs`; `owner` and `register` are accepted but not
forwarded). -/
def new_init (hookLocalWorker : Nat) (owner : Option Nat) (id : Option Nat)
    (register : Bool) (nativeCtor : List Rat → List Rat) (args : List Rat) :
    InitializedTensor :=
  initialize_tensor hookLocalWorker id nativeCtor args

/-! ## `_hook_keras_module`

hook.py, lines 159-185: `tf.Module` gains `send`/`send_` and `get`/`get_`,
which iterate over `self.weights` calling each parameter's own
`send_`/`get_` and return `self`. -/

/-- A keras module: its weight parameters. -/
structure Module where
  weights : List TFTensor
  deriving DecidableEq, Repr

/-- The loop `for p in nn_self.weights: p.send_(*dest)` — send every weight
in order,
threading the worker stores. -/
def sendWeights (w : Nat) : List TFTensor → Env → List TFTensor × Env
  | [], e => ([], e)
  | p :: ps, e =>
      let pe := p.send w e
      let rest := sendWeights w ps pe.2
      (pe.1 :: rest.1, rest.2)

/-- The function `module_send_` (hook.py, lines 166-172): send every weight,
return the
(mutated-in-place) module itself. -/
def Module.send_ (m : Module) (w : Nat) (e : Env) : Module × Env :=
  let r := sendWeights w m.weights e
  (⟨r.1⟩, r.2)

/-- Attribute `tf.Module.send` is bound to the same function object as `send_`
(hook.py, lines 174-175). -/
def Module.send (m : Module) (w : Nat) (e : Env) : Module × Env :=
  Module.send_ m w e

/-- The loop `for p in nn_self.weights: p.get_()` — retrieve every weight. -/
def getWeights : List TFTensor → Env → List TFTensor
  | [], _ => []
  | p :: ps, e => p.get e :: getWeights ps e

/-- The function `module_get_` (hook.py, lines 177-182): retrieve every
weight, return
the module itself. -/
def Module.get_ (m : Module) (e : Env) : Module :=
  ⟨getWeights m.weights e⟩

/-- Attribute `tf.Module.get` is bound to the same function object as `get_`
(hook.py, lines 184-185). -/
def Module.get (m : Module) (e : Env) : Module :=
  Module.get_ m e

/-! ## `_get_hooked_func`: `__module__` rewriting

hook.py, lines 256-273.  Python's `"foo.bar".split(".")` and
`".".join(parts)` are modelled structurally over the character lists. -/

/-- Python `s.split(".")` over the character list. -/
def splitDotAux : List Char → List Char → List (List Char)
  | [], acc => [acc.reverse]
  | c :: rest, acc =>
      if c = '.' then acc.reverse :: splitDotAux rest []
      else splitDotAux rest (c :: acc)

/-- Python `s.split(".")`. -/
def splitDot (s : String) : List String :=
  (splitDotAux s.data []).map (fun l => ⟨l⟩)

/-- Python `".".join(parts)`. -/
def joinDot : List String → String
  | [] => ""
  | [s] => s
  | s :: rest => s ++ "." ++ joinDot rest

/-- The expression `".".join(attr._tf_api_names[0].split(".")[:-1])`: the
submodule part of
a qualified API name. -/
def submoduleOf (n : String) : String := joinDot (splitDot n).dropLast

/-- A wrapped function's API-naming metadata and reported `__module__`:
`tf_api_names` models `_tf_api_names` (absent / present), likewise
`keras_api_names`. -/
structure ApiAttr where
  tf_api_names : Option (List String)
  keras_api_names : Option (List String)
  module : String
  deriving DecidableEq, Repr

/-- The `_keras_api_names` block of `_get_hooked_func` (hook.py, lines
268-271): assert the list is nonempty, then unconditionally join
`("tensorflow", submodule)` with a dot. -/
def kerasRewrite (a : ApiAttr) : Except Unit ApiAttr :=
  match a.keras_api_names with
  | some [] => Except.error ()
  | some (n :: _) =>
      Except.ok { a with module := joinDot ["tensorflow", submoduleOf n] }
  | none => Except.ok a

/-- The `__module__` rewriting of `_get_hooked_func` (hook.py, lines
256-273):
the `_tf_api_names` block falls back to `"tensorflow"` when the first name
has no submodule component; the `_keras_api_names` block runs after it and
never falls back.  `Except.error` models a failing `assert`. -/
def get_hooked_func_module (a : ApiAttr) : Except Unit ApiAttr :=
  match a.tf_api_names with
  | some [] => Except.error ()
  | some (n :: _) =>
      let sub := submoduleOf n
      if sub = "" then kerasRewrite { a with module := "tensorflow" }
      else kerasRewrite { a with module := joinDot ["tensorflow", sub] }
  | none => kerasRewrite a

/-! ## `TensorFlowHook.__init__`: the install state machine

hook.py, lines 18-63.  Process-wide state: the `tf_hooked` marker, the
native tensor type's attribute table, the global hook/worker references, the
worker registry and the count of emitted warnings.  Hook instances are
identified by tokens. -/

/-- The mutable state of one `TensorFlowHook` instance that the claims
mention. -/
structure HookInstance where
  local_worker : Option Nat
  deriving DecidableEq, Repr

/-- Process-wide state touched by `TensorFlowHook.__init__`. -/
structure ProcState where
  tf_hooked : Bool
  tensorTable : AttrMap
  tf_hook : Option Nat
  syft_tensorflow_hook : Option Nat
  syft_framework_hook : Option Nat
  syft_local_worker : Option Nat
  syft_hook : Option Nat
  worker_registry : List Nat
  warnings : Nat
  deriving DecidableEq, Repr

/-- The constructor `TensorFlowHook.__init__` (hook.py, lines 18-63) as a
state transition.
`h` is the new instance, `lwArg` the optional `local_worker` argument,
`freshWorker` the id of the `VirtualWorker` created when none is supplied;
`syftAttrs`/`implS` feed `_add_methods_from_native_tensor`, `propImpl` feeds
`_hook_properties` and `newInitImpl` is `new___init__`.  The result is
`Except` so that raising and returning are distinguished: the
already-hooked path warns and returns early (`Except.ok`), it never
raises. -/
def TensorFlowHook_init (h : Nat) (lwArg : Option Nat) (freshWorker : Nat)
    (syftAttrs : List String) (implS : String → Nat)
    (propImpl : String → Nat) (newInitImpl : Nat) (s : ProcState) :
    Except String (ProcState × HookInstance) :=
  let s1 := { s with tf_hook := some h, syft_tensorflow_hook := some h,
                     syft_framework_hook := some h }
  let inst : HookInstance := ⟨lwArg⟩
  if s1.tf_hooked then
    Except.ok ({ s1 with warnings := s1.warnings + 1 },
               { inst with local_worker := s1.syft_local_worker })
  else
    let lw := match lwArg with
      | some l => l
      | none => freshWorker
    let registry := match lwArg with
      | some _ => s1.worker_registry
      | none => freshWorker :: s1.worker_registry
    let table2 := add_registration_to_init s1.tensorTable newInitImpl
    let table3 := hook_properties propImpl table2
    let table4 := add_methods_from_native_tensor syftAttrs implS table3
    Except.ok ({ s1 with tf_hooked := true,
                         tensorTable := table4,
                         worker_registry := registry,
                         syft_local_worker := some lw,
                         syft_hook := some h },
               { inst with local_worker := some lw })

/-! ## Theorems -/

/-- C1: for every local tensor `t` and worker `w`, `t.send(w).get()` yields a
tensor numerically equal to `t`, with `is_wrapper` restored to `False` and a
local (non-Pointer) child; in particular sending the scalar 2.0 and
retrieving it returns exactly 2.0. -/
theorem send_get_round_trip (d : List Rat) (w : Nat) (e : Env) :
    (((TFTensor.constant d).send w e).1.get ((TFTensor.constant d).send w e).2
        = TFTensor.constant d)
    ∧ (((TFTensor.constant d).send w e).1.get
        ((TFTensor.constant d).send w e).2).is_wrapper = false
    ∧ (((TFTensor.constant d).send w e).1.get
        ((TFTensor.constant d).send w e).2).child = Child.localData d := by
  simp [TFTensor.constant, TFTensor.send, TFTensor.get, Env.lookup]

/-- C3: for tensors `a`, `b` sent to the same worker `w`, adding the two
pointers and retrieving the sum yields `(a + b)` computed purely locally;
in particular [3.0, 3.0] + [2.0, 2.0] retrieves as [5.0, 5.0]. -/
theorem pointer_add_transparency (a b : List Rat) (w : Nat) (e : Env) :
    ∃ z e3,
      TFTensor.addPtr ((TFTensor.constant a).send w e).1
          ((TFTensor.constant b).send w ((TFTensor.constant a).send w e).2).1
          ((TFTensor.constant b).send w ((TFTensor.constant a).send w e).2).2
        = some (z, e3)
      ∧ (z.get e3).child = Child.localData (localAdd a b)
      ∧ (z.get e3).is_wrapper = false := by
  refine ⟨⟨Child.pointer ⟨w, e.nextId + 1 + 1⟩, true, none⟩,
      ⟨(w, e.nextId + 1 + 1, localAdd a b) :: (w, e.nextId + 1, b) ::
        (w, e.nextId, a) :: e.store, e.nextId + 1 + 1 + 1⟩, ?_, ?_, ?_⟩ <;>
    simp [TFTensor.constant, TFTensor.send, TFTensor.addPtr, TFTensor.get,
      Env.lookup]

/-- The concrete scenario of C3 evaluated: [3,3] and [2,2] sent to one worker
sum to [5,5] after retrieval. -/
example :
    ∃ z e3,
      TFTensor.addPtr ((TFTensor.constant [3, 3]).send 0 ⟨[], 0⟩).1
          ((TFTensor.constant [2, 2]).send 0
            ((TFTensor.constant [3, 3]).send 0 ⟨[], 0⟩).2).1
          ((TFTensor.constant [2, 2]).send 0
            ((TFTensor.constant [3, 3]).send 0 ⟨[], 0⟩).2).2
        = some (z, e3)
      ∧ (z.get e3).child = Child.localData [5, 5] := by
  refine ⟨_, _, rfl, ?_⟩
  norm_num [TFTensor.constant, TFTensor.send, TFTensor.addPtr, TFTensor.get,
    Env.lookup, localAdd]

theorem lookupA_setA_same (T : AttrMap) (k : String) (v : Nat) :
    lookupA (setA T k v) k = some v := by
  simp [lookupA, setA]

theorem lookupA_setA_ne (T : AttrMap) (k k' : String) (v : Nat)
    (h : k' ≠ k) : lookupA (setA T k v) k' = lookupA T k' := by
  have hb : (k == k') = false := beq_eq_false_iff_ne.2 (Ne.symm h)
  simp [lookupA, setA, List.find?_cons, hb]

theorem native_append_inj {a b : String}
    (h : "native_" ++ a = "native_" ++ b) : a = b := by
  have hd := congrArg String.data h
  rw [String.data_append, String.data_append] at hd
  exact String.ext (List.append_cancel_left hd)

theorem lookupA_addMethodStep_self (impl : String → Nat) (T : AttrMap)
    (attr : String) (hex : attr ∉ exclude) :
    lookupA (addMethodStep impl T attr) attr = some (impl attr) := by
  unfold addMethodStep
  rw [if_neg hex]
  cases hb : lookupA T attr <;> simp [hb, lookupA_setA_same]

theorem lookupA_addMethodStep_native (impl : String → Nat) (T : AttrMap)
    (attr : String) (v : Nat) (hex : attr ∉ exclude)
    (hne : attr ≠ "native_" ++ attr) (hv : lookupA T attr = some v) :
    lookupA (addMethodStep impl T attr) ("native_" ++ attr) = some v := by
  unfold addMethodStep
  rw [if_neg hex, hv]
  simp only [lookupA_setA_ne _ _ _ _ (Ne.symm hne), lookupA_setA_same]

theorem lookupA_addMethodStep_ne (impl : String → Nat) (T : AttrMap)
    (b k : String) (h1 : k ≠ b) (h2 : k ≠ "native_" ++ b) :
    lookupA (addMethodStep impl T b) k = lookupA T k := by
  unfold addMethodStep
  split
  · rfl
  · cases hb : lookupA T b <;>
      simp [hb, lookupA_setA_ne _ _ _ _ h1, lookupA_setA_ne _ _ _ _ h2]

theorem lookupA_fold_ne (impl : String → Nat) (l : List String)
    (T : AttrMap) (k : String) (h1 : k ∉ l)
    (h2 : ∀ b ∈ l, k ≠ "native_" ++ b) :
    lookupA (l.foldl (addMethodStep impl) T) k = lookupA T k := by
  induction l generalizing T with
  | nil => rfl
  | cons b l ih =>
      have hkb : k ≠ b := fun h => h1 (h ▸ List.mem_cons_self b l)
      rw [List.foldl_cons,
        ih _ (fun h => h1 (List.mem_cons_of_mem b h))
          (fun c hc => h2 c (List.mem_cons_of_mem b hc)),
        lookupA_addMethodStep_ne _ _ _ _ hkb (h2 b (List.mem_cons_self b l))]

/-- C4: during method installation, every attribute of the syft tensor type
outside the fixed exclusion set is copied onto the native tensor type, and
whenever the native type already bound that name, the original binding is
preserved under the alias `native_<name>`. -/
theorem add_methods_copies_and_aliases (syftAttrs : List String)
    (impl : String → Nat) (T : AttrMap) (a : String)
    (hnd : syftAttrs.Nodup) (ha : a ∈ syftAttrs) (hex : a ∉ exclude)
    (hnat : ∀ b ∈ syftAttrs, ∀ c, b ≠ "native_" ++ c) :
    lookupA (add_methods_from_native_tensor syftAttrs impl T) a
        = some (impl a)
    ∧ ∀ v, lookupA T a = some v →
        lookupA (add_methods_from_native_tensor syftAttrs impl T)
            ("native_" ++ a) = some v := by
  obtain ⟨l1, l2, rfl⟩ := List.append_of_mem ha
  rw [List.nodup_append] at hnd
  obtain ⟨hnd1, hnd2, hdisj⟩ := hnd
  have ha1 : a ∉ l1 := fun h => (hdisj h (List.mem_cons_self a l2)).elim
  have ha2 : a ∉ l2 := (List.nodup_cons.1 hnd2).1
  have hastep : ∀ c, a ≠ "native_" ++ c :=
    hnat a (List.mem_append_right l1 (List.mem_cons_self a l2))
  unfold add_methods_from_native_tensor
  rw [List.foldl_append, List.foldl_cons]
  have hT1 : lookupA (l1.foldl (addMethodStep impl) T) a = lookupA T a :=
    lookupA_fold_ne _ _ _ _ ha1 (fun b _ => hastep b)
  constructor
  · rw [lookupA_fold_ne _ _ _ _ ha2 (fun b _ => hastep b)]
    exact lookupA_addMethodStep_self _ _ _ hex
  · intro v hv
    have hna : ("native_" ++ a) ∉ l2 := fun h =>
      hnat _ (List.mem_append_right l1 (List.mem_cons_of_mem a h)) a rfl
    rw [lookupA_fold_ne _ _ _ _ hna
        (fun b hb h => ha2 (native_append_inj h ▸ hb))]
    exact lookupA_addMethodStep_native _ _ _ _ hex (hastep a) (hT1.trans hv)

/-- Witness for C4 at a concrete input: copying attribute "send" onto a
native table that already binds "send" installs the syft implementation and
aliases the native one as "native_send". -/
theorem add_methods_copies_and_aliases_witness :
    lookupA (add_methods_from_native_tensor ["send"] (fun _ => 1)
        [("send", 0)]) "send" = some 1
    ∧ lookupA (add_methods_from_native_tensor ["send"] (fun _ => 1)
        [("send", 0)]) "native_send" = some 0 := by
  have h := add_methods_copies_and_aliases ["send"] (fun _ => 1)
    [("send", 0)] "send" (by decide) (by decide) (by decide)
    (by
      intro b hb c hc
      have hb' : b = "send" := by simpa using hb
      subst hb'
      have hlen := congrArg String.length hc
      rw [String.length_append] at hlen
      have h4 : ("send" : String).length = 4 := rfl
      have h7 : ("native_" : String).length = 7 := rfl
      rw [h4, h7] at hlen
      omega)
  exact ⟨h.1, h.2 0 (by decide)⟩

/-- C7 counterexample: the name "alternative_add" (not excluded, no double
underscore, lowercase start, no `native_alternative_add` alias present)
satisfies every replacement condition of the claim, yet the loop skips it:
it contains the substring `native_`, which the source also rejects. -/
theorem overload_filter_counterexample :
    hook_tensorflow_module [] ["alternative_add"] = []
    ∧ shouldOverloadSpec [] ["alternative_add"] "alternative_add" = true := by
  constructor <;> decide

/-- C7 (amended): when walking a framework namespace, a symbol is replaced
exactly when its name is not in the exclusion set, contains no double
underscore anywhere, does not begin with an uppercase letter, does not begin
with an underscore, does not contain the substring `native_`, and no
`native_<name>` alias is already present in the namespace. -/
theorem overload_filter_characterization (excl moduleDir : List String)
    (func : String) :
    func ∈ hook_tensorflow_module excl moduleDir ↔
      func ∈ moduleDir ∧ func ∉ excl ∧ ¬ ("__".data <:+: func.data)
      ∧ func.front.isUpper = false ∧ func.front ≠ '_'
      ∧ ¬ ("native_".data <:+: func.data)
      ∧ ("native_" ++ func) ∉ moduleDir := by
  unfold hook_tensorflow_module
  rw [List.mem_filter]
  unfold shouldOverload
  split_ifs with h1 h2 h3 h4 h5 <;> simp_all
  intro _ hA
  rcases h5 with hA' | hB
  · exact absurd hA' hA
  · exact hB

/-- Witness for C7's amended characterization at a concrete input: "add" in
a one-name namespace is overloaded. -/
theorem overload_filter_characterization_witness :
    "add" ∈ hook_tensorflow_module [] ["add"] :=
  (overload_filter_characterization [] ["add"] "add").2 (by decide)

/-- C8: the `id` property is generated lazily from the process-wide provider
on first read and every subsequent read returns that same value with no
further state change until explicit reassignment through the setter;
likewise `owner` defaults to the hook's local worker on first read and stays
constant until explicitly set. -/
theorem id_owner_lazy_stable (t : PropsTensor) (p : IdProvider) (lw : Nat) :
    (t.syft_id_attr = none →
      (idGet t p).1 = p.next ∧ (idGet t p).2.2 = ⟨p.next + 1⟩)
    ∧ idGet (idGet t p).2.1 (idGet t p).2.2
        = ((idGet t p).1, (idGet t p).2.1, (idGet t p).2.2)
    ∧ (∀ n, idGet (idSet t n) p = (n, idSet t n, p))
    ∧ (t.owner_attr = none → (ownerGet lw t).1 = lw)
    ∧ ownerGet lw (ownerGet lw t).2 = ((ownerGet lw t).1, (ownerGet lw t).2)
    ∧ (∀ w, ownerGet lw (ownerSet t w) = (w, ownerSet t w)) := by
  obtain ⟨si, ow, iw⟩ := t
  cases si <;> cases ow <;>
    simp [idGet, idSet, IdProvider.pop, ownerGet, ownerSet]

/-- Witness for C8 at a concrete input: a tensor with no materialized
attributes reads id 5 from a provider at 5 and owner 9 from local worker
9. -/
theorem id_owner_lazy_stable_witness :
    (idGet ⟨none, none, none⟩ ⟨5⟩).1 = 5
    ∧ (ownerGet 9 ⟨none, none, none⟩).1 = 9 :=
  ⟨((id_owner_lazy_stable ⟨none, none, none⟩ ⟨5⟩ 9).1 rfl).1,
   (id_owner_lazy_stable ⟨none, none, none⟩ ⟨5⟩ 9).2.2.2.1 rfl⟩

/-- C5: hook installation preserves the native tensor constructor under the
`native___init__` alias, replaces the public constructor by one accepting
optional `owner`, `id`, `register` parameters, and the replacement performs
identity initialization (take the given id, resolve the owner to the local
worker, mark `is_wrapper = False`) before delegating to the preserved native
constructor on the remaining arguments. -/
theorem add_registration_preserves_and_replaces (T : AttrMap)
    (newInitImpl v : Nat) (hv : lookupA T "__init__" = some v)
    (hn : lookupA T "native___init__" = none) :
    lookupA (add_registration_to_init T newInitImpl) "__init__"
        = some newInitImpl
    ∧ lookupA (add_registration_to_init T newInitImpl) "native___init__"
        = some v
    ∧ ∀ lw owner id register ctor args,
        new_init lw owner id register ctor args
          = ⟨ctor args, id, lw, false⟩ := by
  unfold add_registration_to_init
  rw [if_pos hn, hv]
  exact ⟨lookupA_setA_same _ _ _,
    by rw [lookupA_setA_ne _ _ _ _ (by decide), lookupA_setA_same],
    fun lw owner id register ctor args => rfl⟩

/-- Witness for C5 at a concrete input. -/
theorem add_registration_preserves_and_replaces_witness :
    lookupA (add_registration_to_init [("__init__", 3)] 7) "__init__"
        = some 7
    ∧ lookupA (add_registration_to_init [("__init__", 3)] 7)
        "native___init__" = some 3
    ∧ new_init 0 none none true (fun x => x) [] = ⟨[], none, 0, false⟩ := by
  have h := add_registration_preserves_and_replaces [("__init__", 3)] 7 3
    (by decide) (by decide)
  exact ⟨h.1, h.2.1, h.2.2 0 none none true (fun x => x) []⟩

theorem sendWeights_nextId (w : Nat) (ps : List TFTensor) (e : Env) :
    e.nextId ≤ (sendWeights w ps e).2.nextId := by
  induction ps generalizing e with
  | nil => exact Nat.le_refl _
  | cons p ps ih =>
      obtain ⟨c, iw, pid⟩ := p
      cases c with
      | localData d =>
          simp only [sendWeights, TFTensor.send]
          exact le_trans (Nat.le_succ _)
            (ih ⟨(w, e.nextId, d) :: e.store, e.nextId + 1⟩)
      | pointer q =>
          simp only [sendWeights, TFTensor.send]
          exact ih e

theorem sendWeights_lookup_old (w : Nat) (ps : List TFTensor) (e : Env)
    (wi i : Nat) (h : i < e.nextId) :
    Env.lookup (sendWeights w ps e).2 wi i = Env.lookup e wi i := by
  induction ps generalizing e with
  | nil => rfl
  | cons p ps ih =>
      obtain ⟨c, iw, pid⟩ := p
      cases c with
      | localData d =>
          simp only [sendWeights, TFTensor.send]
          rw [ih ⟨(w, e.nextId, d) :: e.store, e.nextId + 1⟩
            (Nat.lt_succ_of_lt h)]
          unfold Env.lookup
          have hne : (e.nextId == i) = false :=
            beq_eq_false_iff_ne.2 (Nat.ne_of_lt h).symm
          simp [List.find?_cons, hne]
      | pointer q =>
          simp only [sendWeights, TFTensor.send]
          exact ih e h

theorem send_get_weights (ds : List (List Rat)) (w : Nat) (e : Env) :
    (∀ q ∈ (sendWeights w (ds.map TFTensor.constant) e).1,
        q.is_wrapper = true ∧ ∃ i, q.child = Child.pointer ⟨w, i⟩)
    ∧ getWeights (sendWeights w (ds.map TFTensor.constant) e).1
        (sendWeights w (ds.map TFTensor.constant) e).2
      = ds.map TFTensor.constant := by
  induction ds generalizing e with
  | nil => exact ⟨fun q hq => absurd hq (List.not_mem_nil q), rfl⟩
  | cons d ds ih =>
      obtain ⟨ih1, ih2⟩ := ih ⟨(w, e.nextId, d) :: e.store, e.nextId + 1⟩
      constructor
      · intro q hq
        simp only [List.map_cons, sendWeights, TFTensor.send,
          TFTensor.constant, List.mem_cons] at hq
        rcases hq with h | h
        · subst h; exact ⟨rfl, ⟨e.nextId, rfl⟩⟩
        · exact ih1 q h
      · have hlook : (sendWeights w (List.map TFTensor.constant ds)
              ⟨(w, e.nextId, d) :: e.store, e.nextId + 1⟩).2.lookup w e.nextId
            = some d := by
          rw [sendWeights_lookup_old w (List.map TFTensor.constant ds)
            ⟨(w, e.nextId, d) :: e.store, e.nextId + 1⟩ w e.nextId
            (Nat.lt_succ_self _)]
          unfold Env.lookup
          simp [List.find?_cons]
        simp only [List.map_cons, sendWeights, TFTensor.send,
          TFTensor.constant, getWeights, TFTensor.get, hlook]
        exact congrArg₂ List.cons rfl ih2

/-- C6: the module supertype's composite `send`/`send_` and `get`/`get_`
iterate over every weight parameter calling its individual send / get and
return the module itself; after `module.send(worker)` every parameter holds
a Pointer to that worker, and `module.get()` restores every parameter to
local data equal to its pre-send value. -/
theorem module_send_get_roundtrip (ds : List (List Rat)) (w : Nat)
    (e : Env) :
    Module.send = Module.send_ ∧ Module.get = Module.get_
    ∧ (∀ q ∈ ((⟨ds.map TFTensor.constant⟩ : Module).send w e).1.weights,
        q.is_wrapper = true ∧ ∃ i, q.child = Child.pointer ⟨w, i⟩)
    ∧ ((⟨ds.map TFTensor.constant⟩ : Module).send w e).1.get
        ((⟨ds.map TFTensor.constant⟩ : Module).send w e).2
      = ⟨ds.map TFTensor.constant⟩ := by
  refine ⟨rfl, rfl, ?_, ?_⟩
  · exact (send_get_weights ds w e).1
  · exact congrArg Module.mk (send_get_weights ds w e).2

/-- Witness for C6 at a concrete input: one empty-payload weight sent to
worker 0 becomes a Pointer there and is restored by get. -/
theorem module_send_get_roundtrip_witness :
    (⟨Child.pointer ⟨0, 0⟩, true, none⟩ : TFTensor).is_wrapper = true
    ∧ (∃ i, (⟨Child.pointer ⟨0, 0⟩, true, none⟩ : TFTensor).child
        = Child.pointer ⟨0, i⟩)
    ∧ ((⟨[TFTensor.constant []]⟩ : Module).send 0 ⟨[], 0⟩).1.get
        ((⟨[TFTensor.constant []]⟩ : Module).send 0 ⟨[], 0⟩).2
      = ⟨[TFTensor.constant []]⟩ := by
  refine ⟨?_, ?_, (module_send_get_roundtrip [[]] 0 ⟨[], 0⟩).2.2.2⟩
  · exact ((module_send_get_roundtrip [[]] 0 ⟨[], 0⟩).2.2.1 _ (by decide)).1
  · exact ((module_send_get_roundtrip [[]] 0 ⟨[], 0⟩).2.2.1 _ (by decide)).2

/-- C9 counterexample: a wrapped function carrying keras API metadata whose
first API name "relu" has no submodule component has its `__module__`
rewritten to "tensorflow." (with a trailing dot), not to the framework root
"tensorflow". -/
theorem get_hooked_func_no_keras_fallback :
    get_hooked_func_module ⟨none, some ["relu"], "wrap_site"⟩
      = Except.ok ⟨none, some ["relu"], "tensorflow."⟩
    ∧ ("tensorflow." : String) ≠ "tensorflow" := by
  exact ⟨rfl, by decide⟩

/-- C9 (amended): the wrapped function's reported module is rewritten to
"tensorflow" joined with the submodule of the first API name; the fallback
to the framework root when the name has no submodule component applies to
`_tf_api_names` metadata only, while for `_keras_api_names` the join is
unconditional (yielding "tensorflow." when there is no submodule
component). -/
theorem get_hooked_func_module_rewrite (tfn kn : Option (List String))
    (m n : String) (rest : List String) :
    (tfn = some (n :: rest) → kn = none →
      get_hooked_func_module ⟨tfn, kn, m⟩ = Except.ok ⟨tfn, kn,
        if submoduleOf n = "" then "tensorflow"
        else joinDot ["tensorflow", submoduleOf n]⟩)
    ∧ (kn = some (n :: rest) → tfn ≠ some [] →
      get_hooked_func_module ⟨tfn, kn, m⟩ = Except.ok ⟨tfn, kn,
        joinDot ["tensorflow", submoduleOf n]⟩) := by
  constructor
  · rintro rfl rfl
    unfold get_hooked_func_module kerasRewrite
    by_cases hs : submoduleOf n = "" <;> simp [hs]
  · rintro rfl htf
    match tfn with
    | none => unfold get_hooked_func_module kerasRewrite; simp
    | some [] => exact absurd rfl htf
    | some (x :: xs) =>
        unfold get_hooked_func_module kerasRewrite
        by_cases hs : submoduleOf x = "" <;> simp [hs]

/-- Witness for C9's amended theorem at concrete inputs: a tf API name with
a submodule reports "tensorflow.math", and a keras API name with a submodule
reports "tensorflow.keras.layers". -/
theorem get_hooked_func_module_rewrite_witness :
    get_hooked_func_module ⟨some ["math.add"], none, "w"⟩
      = Except.ok ⟨some ["math.add"], none,
          if submoduleOf "math.add" = "" then "tensorflow"
          else joinDot ["tensorflow", submoduleOf "math.add"]⟩
    ∧ get_hooked_func_module ⟨none, some ["keras.layers.Dense"], "w"⟩
      = Except.ok ⟨none, some ["keras.layers.Dense"],
          joinDot ["tensorflow", submoduleOf "keras.layers.Dense"]⟩ :=
  ⟨(get_hooked_func_module_rewrite (some ["math.add"]) none "w" "math.add"
      []).1 rfl rfl,
   (get_hooked_func_module_rewrite none (some ["keras.layers.Dense"]) "w"
      "keras.layers.Dense" []).2 rfl (by simp)⟩

theorem init_skip_path (h : Nat) (lwArg : Option Nat) (fw : Nat)
    (sa : List String) (im pi : String → Nat) (ni : Nat) (s : ProcState)
    (hs : s.tf_hooked = true) :
    TensorFlowHook_init h lwArg fw sa im pi ni s
      = Except.ok
          ({ s with tf_hook := some h, syft_tensorflow_hook := some h,
                    syft_framework_hook := some h,
                    warnings := s.warnings + 1 },
           ⟨s.syft_local_worker⟩) := by
  simp [TensorFlowHook_init, hs]

theorem init_fresh_path (h : Nat) (lwArg : Option Nat) (fw : Nat)
    (sa : List String) (im pi : String → Nat) (ni : Nat) (s : ProcState)
    (hs : s.tf_hooked = false) :
    TensorFlowHook_init h lwArg fw sa im pi ni s
      = Except.ok
          ({ s with tf_hooked := true,
                    tf_hook := some h, syft_tensorflow_hook := some h,
                    syft_framework_hook := some h,
                    tensorTable := add_methods_from_native_tensor sa im
                      (hook_properties pi
                        (add_registration_to_init s.tensorTable ni)),
                    worker_registry := match lwArg with
                      | some _ => s.worker_registry
                      | none => fw :: s.worker_registry,
                    syft_local_worker := some (match lwArg with
                      | some l => l
                      | none => fw),
                    syft_hook := some h },
           ⟨some (match lwArg with | some l => l | none => fw)⟩) := by
  simp [TensorFlowHook_init, hs]

/-- C2: constructing a `TensorFlowHook` a second time on the same framework
module is detected via the `tf_hooked` marker flag, leaves the native tensor
type's method table unchanged after the second call, emits exactly one
warning across the two constructions, and is handled by early return
(`Except.ok`), not an exception. -/
theorem double_hook_idempotent (h1 h2 : Nat) (lw1 lw2 : Option Nat)
    (fw1 fw2 : Nat) (sa : List String) (im pi : String → Nat) (ni : Nat)
    (s0 : ProcState) (hs : s0.tf_hooked = false) :
    ∃ s1 i1 s2 i2,
      TensorFlowHook_init h1 lw1 fw1 sa im pi ni s0 = Except.ok (s1, i1)
      ∧ s1.tf_hooked = true
      ∧ s1.warnings = s0.warnings
      ∧ TensorFlowHook_init h2 lw2 fw2 sa im pi ni s1 = Except.ok (s2, i2)
      ∧ s2.tensorTable = s1.tensorTable
      ∧ s2.warnings = s0.warnings + 1 :=
  ⟨_, _, _, _, init_fresh_path h1 lw1 fw1 sa im pi ni s0 hs, rfl, rfl,
   init_skip_path h2 lw2 fw2 sa im pi ni _ rfl, rfl, rfl⟩

/-- Witness for C2 at a concrete input: hooking an initially unhooked
process twice. -/
theorem double_hook_idempotent_witness :
    ∃ s1 i1 s2 i2,
      TensorFlowHook_init 1 none 0 [] (fun _ => 0) (fun _ => 0) 0
          ⟨false, [], none, none, none, none, none, [], 0⟩
        = Except.ok (s1, i1)
      ∧ s1.tf_hooked = true
      ∧ s1.warnings = 0
      ∧ TensorFlowHook_init 2 none 0 [] (fun _ => 0) (fun _ => 0) 0 s1
        = Except.ok (s2, i2)
      ∧ s2.tensorTable = s1.tensorTable
      ∧ s2.warnings = 0 + 1 :=
  double_hook_idempotent 1 2 none none 0 0 [] (fun _ => 0) (fun _ => 0) 0
    ⟨false, [], none, none, none, none, none, [], 0⟩ rfl

/-- C10 counterexample: on the already-hooked path the globals `syft.hook`
and `syft.local_worker` are ALSO left untouched (here: both keep their old
values), refuting the claim's assertion that only the native type's method
table and the worker registry are left untouched. -/
theorem rehook_globals_counterexample :
    ∃ s' inst,
      TensorFlowHook_init 1 none 0 [] (fun _ => 0) (fun _ => 0) 0
          ⟨true, [], some 9, some 9, some 9, some 7, some 9, [7], 0⟩
        = Except.ok (s', inst)
      ∧ s'.syft_hook = some 9
      ∧ s'.syft_local_worker = some 7 :=
  ⟨_, _, init_skip_path 1 none 0 [] (fun _ => 0) (fun _ => 0) 0
      ⟨true, [], some 9, some 9, some 9, some 7, some 9, [7], 0⟩ rfl,
   rfl, rfl⟩

/-- C10 (amended): even on the already-hooked path, constructing a second
`TensorFlowHook` mutates process-wide state before returning: it reassigns
the framework's hook reference, `syft.tensorflow` and `syft.framework` to
the new instance and sets the new instance's `local_worker` to the existing
global `syft.local_worker`; the native type's method table, the `tf_hooked`
marker, the worker registry, and the globals `syft.hook` and
`syft.local_worker` are left untouched. -/
theorem rehook_mutates_globals (h : Nat) (lwArg : Option Nat) (fw : Nat)
    (sa : List String) (im pi : String → Nat) (ni : Nat) (s : ProcState)
    (hs : s.tf_hooked = true) :
    ∃ s' inst,
      TensorFlowHook_init h lwArg fw sa im pi ni s = Except.ok (s', inst)
      ∧ s'.tf_hook = some h
      ∧ s'.syft_tensorflow_hook = some h
      ∧ s'.syft_framework_hook = some h
      ∧ inst.local_worker = s.syft_local_worker
      ∧ s'.tensorTable = s.tensorTable
      ∧ s'.tf_hooked = true
      ∧ s'.worker_registry = s.worker_registry
      ∧ s'.syft_hook = s.syft_hook
      ∧ s'.syft_local_worker = s.syft_local_worker :=
  ⟨_, _, init_skip_path h lwArg fw sa im pi ni s hs, rfl, rfl, rfl, rfl,
   rfl, hs, rfl, rfl, rfl⟩

/-- Witness for C10's amended theorem at a concrete already-hooked state. -/
theorem rehook_mutates_globals_witness :
    ∃ s' inst,
      TensorFlowHook_init 3 none 0 [] (fun _ => 0) (fun _ => 0) 0
          ⟨true, [("m", 0)], some 9, some 9, some 9, some 7, some 9, [7], 0⟩
        = Except.ok (s', inst)
      ∧ s'.tf_hook = some 3
      ∧ s'.syft_tensorflow_hook = some 3
      ∧ s'.syft_framework_hook = some 3
      ∧ inst.local_worker = some 7
      ∧ s'.tensorTable = [("m", 0)]
      ∧ s'.tf_hooked = true
      ∧ s'.worker_registry = [7]
      ∧ s'.syft_hook = some 9
      ∧ s'.syft_local_worker = some 7 :=
  rehook_mutates_globals 3 none 0 [] (fun _ => 0) (fun _ => 0) 0
    ⟨true, [("m", 0)], some 9, some 9, some 9, some 7, some 9, [7], 0⟩ rfl

end PySyftTF
